import Mathlib

/-!
Verification of the calorie-tracker MVP (FITVA) against its specification.

The definitions below are shallow embeddings of the TypeScript handlers and
utilities found in the repository's technical implementation guide:
the TDEE calculator (`lib/tdee.ts`), the meal logging API
(`app/api/meals/route.ts`), the daily summary API
(`app/api/nutrition/daily/route.ts`), the insights API
(`app/api/nutrition/insights/route.ts`), and the nutrition analysis API
(`app/api/nutrition/analyze/route.ts`).

JavaScript numbers are modelled as rationals (`ℚ`), integer columns as `ℤ`,
timestamps as milliseconds since the epoch (`ℕ`), and calendar dates as day
numbers (`ℕ`, start-of-day buckets of 86400000 ms).  JavaScript truthiness of
a number (`x || d`) is modelled by testing against zero.  The relational
store is modelled as in-memory lists of rows; the external text-generation
provider is modelled as an oracle parameter.
-/

/-- JavaScript `Math.round`: round half toward positive infinity. -/
def jsRound (q : ℚ) : ℤ := ⌊q + 1/2⌋

/-- JavaScript `x || d` for a number `x`: `d` when `x` is falsy (0), else `x`. -/
def jsOr (x d : ℤ) : ℤ := if x = 0 then d else x

/-- JavaScript `x?.f || d` for an optional integer: `d` when absent or falsy. -/
def jsOptOr (x : Option ℤ) (d : ℤ) : ℤ :=
  match x with
  | none => d
  | some v => jsOr v d

/-! ### TDEE calculator (`lib/tdee.ts`) -/

/-- `calculateBMR` from `lib/tdee.ts`: Mifflin-St Jeor equation. -/
def calculateBMR (weight height age : ℚ) (gender : String) : ℚ :=
  if gender = "male" then
    10 * weight + 6.25 * height - 5 * age + 5
  else
    10 * weight + 6.25 * height - 5 * age - 161

/-- The activity-level multiplier lookup in `calculateTDEE`
(`multipliers[activityLevel] || 1.375`). -/
def tdeeMultiplier (activityLevel : String) : ℚ :=
  if activityLevel = "sedentary" then 1.2
  else if activityLevel = "light" then 1.375
  else if activityLevel = "moderate" then 1.55
  else if activityLevel = "active" then 1.725
  else if activityLevel = "very_active" then 1.9
  else 1.375

/-- `calculateTDEE` from `lib/tdee.ts`. -/
def calculateTDEE (bmr : ℚ) (activityLevel : String) : ℤ :=
  jsRound (bmr * tdeeMultiplier activityLevel)

/-- The goal adjustment lookup in `calculateTargetCalories`
(`adjustments[goal] || 0`). -/
def goalAdjustment (goal : String) : ℚ :=
  if goal = "lose" then -500
  else if goal = "gain" then 500
  else if goal = "maintain" then 0
  else 0

/-- `calculateTargetCalories` from `lib/tdee.ts`. -/
def calculateTargetCalories (tdee : ℚ) (goal : String) : ℤ :=
  jsRound (tdee + goalAdjustment goal)

/-! ### Data model (Prisma schema rows) -/

/-- Milliseconds per calendar day. -/
def msPerDay : ℕ := 86400000

/-- The calendar date (day number) a timestamp falls on: the start-of-day
bucket produced by `setHours(0, 0, 0, 0)`. -/
def dayOf (ts : ℕ) : ℕ := ts / msPerDay

/-- A row of the `meals` table (the fields the specified behaviour uses). -/
structure Meal where
  userId : String
  description : String
  mealType : String
  timestamp : ℕ
  calories : ℚ
  protein : ℚ
  carbs : ℚ
  fats : ℚ
deriving DecidableEq, Repr

/-- A row of the `daily_summaries` table. -/
structure DailySummaryRow where
  userId : String
  date : ℕ
  totalCalories : ℚ
  totalProtein : ℚ
  totalCarbs : ℚ
  totalFats : ℚ
  goalCalories : ℤ
deriving DecidableEq, Repr

/-- The request body accepted by `POST /api/meals` (`createMealSchema`). -/
structure MealInput where
  description : String
  mealType : String
  timestamp : Option ℕ
  calories : ℚ
  protein : ℚ
  carbs : ℚ
  fats : ℚ
deriving DecidableEq, Repr

/-- The relational store: the authenticated user's meal and summary rows. -/
structure Store where
  meals : List Meal
  summaries : List DailySummaryRow
deriving DecidableEq, Repr

/-! ### Meal logging API (`app/api/meals/route.ts`) -/

/-- `prisma.dailySummary.upsert` keyed on `(userId, date)`: increment the
totals of the existing row, or create a row seeded with the meal's macros and
the goal seed (`user.targetCalories || 2000`). -/
def upsertSummary (uid : String) (d : ℕ) (inp : MealInput) (goalSeed : ℤ) :
    List DailySummaryRow → List DailySummaryRow
  | [] => [⟨uid, d, inp.calories, inp.protein, inp.carbs, inp.fats, goalSeed⟩]
  | s :: rest =>
    if s.userId = uid ∧ s.date = d then
      { s with
        totalCalories := s.totalCalories + inp.calories
        totalProtein := s.totalProtein + inp.protein
        totalCarbs := s.totalCarbs + inp.carbs
        totalFats := s.totalFats + inp.fats } :: rest
    else
      s :: upsertSummary uid d inp goalSeed rest

/-- The `POST` handler of `app/api/meals/route.ts`.  It first inserts the meal
row (timestamp defaulting to the current time `now`), then upserts the daily
summary for `today = dayOf now` — the current day, not the meal's own date.
`upsertFails` models the summary write throwing after the meal write has
committed; the `catch` block then returns HTTP 500 with the meal still
stored.  Returns the new store and the HTTP status. -/
def createMealPOST (upsertFails : Bool) (now : ℕ) (uid : String)
    (targetCalories : Option ℤ) (inp : MealInput) (st : Store) : Store × ℕ :=
  let meal : Meal :=
    ⟨uid, inp.description, inp.mealType, inp.timestamp.getD now,
      inp.calories, inp.protein, inp.carbs, inp.fats⟩
  let st1 : Store := { st with meals := st.meals ++ [meal] }
  if upsertFails then (st1, 500)
  else
    ({ st1 with
        summaries :=
          upsertSummary uid (dayOf now) inp (jsOptOr targetCalories 2000) st1.summaries },
      200)

/-- Sum of the `calories` column over a user's meals falling on a date. -/
def mealsCalories (st : Store) (uid : String) (d : ℕ) : ℚ :=
  ((st.meals.filter fun m => m.userId == uid && dayOf m.timestamp == d).map
    Meal.calories).sum

/-- The `totalCalories` column of a user's summary row for a date
(0 when the row is absent). -/
def summaryCalories (st : Store) (uid : String) (d : ℕ) : ℚ :=
  match st.summaries.find? (fun s => s.userId == uid && s.date == d) with
  | some s => s.totalCalories
  | none => 0

/-- The concrete run deciding claim C1: current time is on day 101, the
supplied meal timestamp is noon on day 100, the store starts empty. -/
def c1Store : Store :=
  (createMealPOST false (101 * msPerDay) "u1" (some 2200)
    ⟨"oatmeal", "breakfast", some (100 * msPerDay + 43200000), 500, 20, 60, 10⟩
    ⟨[], []⟩).1

/-- The concrete run deciding claim C2: the summary upsert throws after the
meal row has been written. -/
def c2Result : Store × ℕ :=
  createMealPOST true (101 * msPerDay + 3600000) "u1" (some 2200)
    ⟨"pasta", "dinner", none, 500, 20, 60, 10⟩
    ⟨[], []⟩

/-- Descending-timestamp order used by `orderBy: { timestamp: 'desc' }`. -/
def tsDesc (a b : Meal) : Prop := b.timestamp ≤ a.timestamp

instance : DecidableRel tsDesc := fun a b =>
  inferInstanceAs (Decidable (b.timestamp ≤ a.timestamp))

instance : IsTotal Meal tsDesc :=
  ⟨fun a b => Nat.le_total b.timestamp a.timestamp⟩

instance : IsTrans Meal tsDesc :=
  ⟨fun _ _ _ hab hbc => le_trans hbc hab⟩

/-- The `GET` handler of `app/api/meals/route.ts`: filter the user's meals by
the optional date (timestamp between `setHours(0,0,0,0)` and
`setHours(23,59,59,999)` of that date, inclusive) and the optional meal type,
ordered by timestamp descending. -/
def getMealsGET (db : List Meal) (uid : String) (dateParam : Option ℕ)
    (mealType : Option String) : List Meal :=
  let pred : Meal → Bool := fun m =>
    m.userId == uid
    && (match dateParam with
        | some d =>
          decide (d * msPerDay ≤ m.timestamp)
            && decide (m.timestamp ≤ d * msPerDay + (msPerDay - 1))
        | none => true)
    && (match mealType with
        | some t => m.mealType == t
        | none => true)
  List.insertionSort tsDesc (db.filter pred)

/-! ### Daily summary API (`app/api/nutrition/daily/route.ts`) -/

/-- The totals-and-goal object used by the `GET` handler: either the stored
`DailySummary` row, or the fallback object with zero totals and
`goalCalories: user?.targetCalories || 2000`. -/
structure SummaryData where
  totalCalories : ℚ
  totalProtein : ℚ
  totalCarbs : ℚ
  totalFats : ℚ
  goalCalories : ℤ
deriving DecidableEq, Repr

/-- `const summary = dailySummary || { ...zeros, goalCalories: user?.targetCalories || 2000 }`. -/
def summaryDataOf (stored : Option DailySummaryRow) (target : Option ℤ) : SummaryData :=
  match stored with
  | some s => ⟨s.totalCalories, s.totalProtein, s.totalCarbs, s.totalFats, s.goalCalories⟩
  | none => ⟨0, 0, 0, 0, jsOptOr target 2000⟩

/-- The JSON object returned by the daily summary `GET` handler. -/
structure SummaryResp where
  totalCalories : ℚ
  totalProtein : ℚ
  totalCarbs : ℚ
  totalFats : ℚ
  goalCalories : ℤ
  remaining : ℚ
  percentage : ℚ
deriving DecidableEq, Repr

/-- The `GET` handler of `app/api/nutrition/daily/route.ts`:
`remaining = (summary.goalCalories || 0) - summary.totalCalories`,
`percentage = goalCalories ? totalCalories/goalCalories*100 : 0` clamped by
`Math.min(percentage, 100)`, and the response's `goalCalories` field is
`summary.goalCalories || user?.targetCalories || 2000`. -/
def getSummaryGET (stored : Option DailySummaryRow) (target : Option ℤ) : SummaryResp :=
  let s := summaryDataOf stored target
  let remaining : ℚ := ((jsOr s.goalCalories 0 : ℤ) : ℚ) - s.totalCalories
  let percentage : ℚ :=
    if s.goalCalories ≠ 0 then s.totalCalories / (s.goalCalories : ℚ) * 100 else 0
  ⟨s.totalCalories, s.totalProtein, s.totalCarbs, s.totalFats,
    jsOr s.goalCalories (jsOptOr target 2000), remaining, min percentage 100⟩

/-! ### Insights API (`app/api/nutrition/insights/route.ts`) -/

/-- The response of the insights `GET` handler, together with a flag
recording whether the upstream text-generation call was reached. -/
structure InsightsResult where
  status : ℕ
  message : Option String
  insights : List String
  upstreamCalled : Bool
deriving DecidableEq, Repr

/-- The `GET` handler of `app/api/nutrition/insights/route.ts`: fetch the
user's meals of the last 7 days (timestamp at least the start of the day 7
days ago); when fewer than 5 are found return the "not enough data" JSON with
an empty insights list (HTTP 200) before any call to the provider; otherwise
call the provider (`upstream` is the oracle for its parsed reply). -/
def insightsGET (now : ℕ) (db : List Meal) (uid : String)
    (upstream : List String) : InsightsResult :=
  let sevenDaysAgo := (dayOf now - 7) * msPerDay
  let meals := db.filter fun m => m.userId == uid && decide (sevenDaysAgo ≤ m.timestamp)
  if meals.length < 5 then
    ⟨200, some "Not enough data yet. Log at least 5 meals to get insights.", [], false⟩
  else
    ⟨200, none, upstream, true⟩

/-! ### Nutrition analysis API (`app/api/nutrition/analyze/route.ts`) -/

/-- The nutrition object accepted by `nutritionResponseSchema`. -/
structure Nutrition where
  calories : ℚ
  protein : ℚ
  carbs : ℚ
  fats : ℚ
  fiber : Option ℚ
  sugar : Option ℚ
  sodium : Option ℚ
  confidence : String
  notes : Option String
deriving DecidableEq, Repr

/-- How the reply content of the provider fares under
`nutritionResponseSchema.parse(JSON.parse(responseText))`. -/
inductive ReplyParse where
  | notJson
  | schemaFail
  | ok (n : Nutrition)
deriving DecidableEq, Repr

/-- The outcome of `openai.chat.completions.create`: the call throws
(network error, rate limit, timeout), returns a completion with null
content, or returns content that parses as described. -/
inductive UpstreamOutcome where
  | callError
  | noContent
  | content (r : ReplyParse)
deriving DecidableEq, Repr

/-- The JSON body of the analyze response. -/
inductive AnalyzeBody where
  | nutrition (n : Nutrition)
  | errorMsg (s : String)
deriving DecidableEq, Repr

/-- HTTP status and body returned by the analyze handler. -/
structure AnalyzeResp where
  status : ℕ
  body : AnalyzeBody
deriving DecidableEq, Repr

/-- Whether the upstream outcome yields a schema-valid nutrition object. -/
def outcomeOk (o : UpstreamOutcome) : Bool :=
  match o with
  | .content (.ok _) => true
  | _ => false

/-- The `POST` handler of `app/api/nutrition/analyze/route.ts`.  Everything —
request validation, the provider call, JSON parsing and schema validation —
runs inside one `try`; every `catch` returns the same
`{ error: 'Failed to analyze food' }` with status 500. -/
def analyzePOST (requestValid : Bool) (o : UpstreamOutcome) : AnalyzeResp :=
  if requestValid = false then ⟨500, .errorMsg "Failed to analyze food"⟩
  else
    match o with
    | .callError => ⟨500, .errorMsg "Failed to analyze food"⟩
    | .noContent => ⟨500, .errorMsg "Failed to analyze food"⟩
    | .content .notJson => ⟨500, .errorMsg "Failed to analyze food"⟩
    | .content .schemaFail => ⟨500, .errorMsg "Failed to analyze food"⟩
    | .content (.ok n) => ⟨200, .nutrition n⟩

/-! ### Helper lemmas -/

/-- Filtering by a conjunction keeps no more elements than filtering by the
first conjunct alone. -/
theorem length_filter_and_le {α : Type} (p q : α → Bool) (l : List α) :
    (l.filter fun a => p a && q a).length ≤ (l.filter p).length := by
  induction l with
  | nil => simp
  | cons a t ih =>
    by_cases hp : p a
    · by_cases hq : q a
      · simpa [List.filter_cons, hp, hq] using ih
      · simp only [List.filter_cons, hp, hq]
        simp only [Bool.and_false, Bool.false_eq_true, if_false, if_true]
        exact le_trans ih (Nat.le_succ _)
    · simpa [List.filter_cons, hp] using ih

/-- A timestamp lies in the inclusive millisecond range of a date exactly
when it falls on that date. -/
theorem mem_day_range_iff (d ts : ℕ) :
    (d * msPerDay ≤ ts ∧ ts ≤ d * msPerDay + (msPerDay - 1)) ↔ dayOf ts = d := by
  unfold dayOf msPerDay
  omega

/-! ### Theorems for claims C6, C7, C8 -/

/-- C6 (counterexample): the claim's scenario value is wrong.  On the code,
`calculateBMR(80, 180, 30, "male")` evaluates to `1780`, not to `1792.5`
(which is `3585/2`): `10·80 + 6.25·180 − 5·30 + 5 = 1780`. -/
theorem calculateBMR_scenario_counterexample :
    calculateBMR 80 180 30 "male" = 1780 ∧ calculateBMR 80 180 30 "male" ≠ 3585 / 2 := by
  constructor <;> norm_num [calculateBMR]

/-- C6 (amended): `calculateBMR` returns exactly
`10·weight + 6.25·height − 5·age + 5` for male-coded gender and
`10·weight + 6.25·height − 5·age − 161` otherwise, with no rounding; in
particular `calculateBMR(80, 180, 30, "male") = 1780`. -/
theorem calculateBMR_spec :
    (∀ w h a : ℚ, calculateBMR w h a "male" = 10 * w + 6.25 * h - 5 * a + 5)
    ∧ (∀ w h a : ℚ, ∀ g : String, g ≠ "male" →
        calculateBMR w h a g = 10 * w + 6.25 * h - 5 * a - 161)
    ∧ calculateBMR 80 180 30 "male" = 1780 := by
  refine ⟨fun w h a => ?_, fun w h a g hg => ?_, by norm_num [calculateBMR]⟩
  · simp [calculateBMR]
  · simp [calculateBMR, hg]

/-- Witness for C6: the non-male branch at a concrete input. -/
theorem calculateBMR_spec_witness :
    ("female" : String) ≠ "male"
    ∧ calculateBMR 60 165 25 "female" = 10 * 60 + 6.25 * 165 - 5 * 25 - 161 :=
  ⟨by decide, calculateBMR_spec.2.1 60 165 25 "female" (by decide)⟩

/-- C7: `calculateTDEE` multiplies the BMR by the fixed factor
{sedentary: 1.2, light: 1.375, moderate: 1.55, active: 1.725,
very_active: 1.9}, defaults to 1.375 for any unknown level, and rounds to the
nearest integer; in particular `calculateTDEE(1792.5, "moderate") = 2778`. -/
theorem calculateTDEE_spec :
    (∀ bmr : ℚ,
      calculateTDEE bmr "sedentary" = jsRound (bmr * 1.2)
      ∧ calculateTDEE bmr "light" = jsRound (bmr * 1.375)
      ∧ calculateTDEE bmr "moderate" = jsRound (bmr * 1.55)
      ∧ calculateTDEE bmr "active" = jsRound (bmr * 1.725)
      ∧ calculateTDEE bmr "very_active" = jsRound (bmr * 1.9))
    ∧ (∀ (bmr : ℚ) (level : String),
        level ∉ (["sedentary", "light", "moderate", "active", "very_active"] : List String) →
        calculateTDEE bmr level = jsRound (bmr * 1.375))
    ∧ calculateTDEE (3585 / 2) "moderate" = 2778 := by
  refine ⟨fun bmr => ⟨rfl, rfl, rfl, rfl, rfl⟩, fun bmr level hlev => ?_,
    by norm_num [calculateTDEE, jsRound, show tdeeMultiplier "moderate" = 1.55 from rfl]⟩
  simp only [List.mem_cons, List.not_mem_nil, or_false, not_or] at hlev
  obtain ⟨h1, h2, h3, h4, h5⟩ := hlev
  simp [calculateTDEE, tdeeMultiplier, h1, h2, h3, h4, h5]

/-- Witness for C7: an unknown activity level falls back to the 1.375 factor. -/
theorem calculateTDEE_spec_witness :
    ("couch" : String) ∉ (["sedentary", "light", "moderate", "active", "very_active"] : List String)
    ∧ calculateTDEE 2000 "couch" = jsRound (2000 * 1.375) :=
  ⟨by decide, calculateTDEE_spec.2.1 2000 "couch" (by decide)⟩

/-- C8: `calculateTargetCalories` adds the fixed offset
{lose: −500, gain: +500, maintain: 0}, with 0 offset for any unknown goal,
rounded to the nearest integer; in particular
`calculateTargetCalories(2778, "lose") = 2278`. -/
theorem calculateTargetCalories_spec :
    (∀ tdee : ℚ,
      calculateTargetCalories tdee "lose" = jsRound (tdee - 500)
      ∧ calculateTargetCalories tdee "gain" = jsRound (tdee + 500)
      ∧ calculateTargetCalories tdee "maintain" = jsRound (tdee + 0))
    ∧ (∀ (tdee : ℚ) (goal : String),
        goal ∉ (["lose", "gain", "maintain"] : List String) →
        calculateTargetCalories tdee goal = jsRound (tdee + 0))
    ∧ calculateTargetCalories 2778 "lose" = 2278 := by
  refine ⟨fun tdee => ⟨?_, rfl, rfl⟩, fun tdee goal hg => ?_,
    by norm_num [calculateTargetCalories, jsRound, show goalAdjustment "lose" = -500 from rfl]⟩
  · show jsRound (tdee + goalAdjustment "lose") = jsRound (tdee - 500)
    rw [sub_eq_add_neg]
    rfl
  · simp only [List.mem_cons, List.not_mem_nil, or_false, not_or] at hg
    obtain ⟨h1, h2, h3⟩ := hg
    simp [calculateTargetCalories, goalAdjustment, h1, h2, h3]

/-- Witness for C8: an unknown goal gets a 0 offset. -/
theorem calculateTargetCalories_spec_witness :
    ("bulk" : String) ∉ (["lose", "gain", "maintain"] : List String)
    ∧ calculateTargetCalories 2500 "bulk" = jsRound (2500 + 0) :=
  ⟨by decide, calculateTargetCalories_spec.2.1 2500 "bulk" (by decide)⟩

/-! ### Theorems for claims C1 and C2 -/

/-- C1 (code bug): creating a meal whose supplied timestamp falls on day 100
while the current day is 101 leaves day 100 with 500 kcal of meals but no
summary, and credits the 500 kcal to day 101's summary, which has no meals —
the handler upserts the summary for `new Date()`'s day, ignoring the meal's
own date, so the claimed invariant fails on both dates. -/
theorem createMeal_cross_date_bug :
    mealsCalories c1Store "u1" 100 = 500
    ∧ summaryCalories c1Store "u1" 100 = 0
    ∧ mealsCalories c1Store "u1" 101 = 0
    ∧ summaryCalories c1Store "u1" 101 = 500
    ∧ mealsCalories c1Store "u1" 100 ≠ summaryCalories c1Store "u1" 100 := by
  refine ⟨?_, ?_, ?_, ?_, ?_⟩ <;>
    simp [c1Store, createMealPOST, upsertSummary, mealsCalories, summaryCalories,
      dayOf, msPerDay, jsOptOr, jsOr, List.filter, List.find?]

/-- C2 (code bug): when the summary upsert throws after the meal insert
succeeded, the handler's `catch` returns HTTP 500 with the meal still stored
and no summary row — an orphaned meal the claim says is unreachable; there
is no transaction, retry, or rollback in the handler. -/
theorem createMeal_orphan_bug :
    c2Result.2 = 500
    ∧ c2Result.1.meals =
        [⟨"u1", "pasta", "dinner", 101 * msPerDay + 3600000, 500, 20, 60, 10⟩]
    ∧ c2Result.1.summaries = []
    ∧ mealsCalories c2Result.1 "u1" 101 = 500
    ∧ summaryCalories c2Result.1 "u1" 101 = 0 := by
  refine ⟨rfl, rfl, rfl, ?_, rfl⟩
  simp [c2Result, createMealPOST, mealsCalories, dayOf, msPerDay, List.filter]

/-! ### Theorem for claim C10 -/

/-- C10: when the user's `targetCalories` is unset (null), the first
`DailySummary` row created by the meal create handler is seeded with
`goalCalories = 2000`, and the daily summary `GET` with no stored row reports
zero totals, `goalCalories = 2000`, `remaining = 2000` and `percentage = 0` —
both computed against the silent 2000 default instead of failing. -/
theorem defaultGoal2000_spec (now : ℕ) (uid : String) (inp : MealInput) :
    ((createMealPOST false now uid none inp ⟨[], []⟩).1).summaries
      = [⟨uid, dayOf now, inp.calories, inp.protein, inp.carbs, inp.fats, 2000⟩]
    ∧ getSummaryGET none none = ⟨0, 0, 0, 0, 2000, 2000, 0⟩ := by
  constructor
  · rfl
  · simp [getSummaryGET, summaryDataOf, jsOptOr, jsOr, SummaryResp.mk.injEq]

/-! ### Theorem for claim C3 -/

/-- C3: for a positive goal, the daily summary `GET` returns
`remaining = goalCalories − totalCalories` (negative when over goal) and
`percentage = min(100, totalCalories/goalCalories·100)`, so the percentage
never exceeds 100; when no summary row is stored it returns zeroed totals
with the user's current (set, positive) target calories as the goal. -/
theorem getSummary_spec (stored : Option DailySummaryRow) (target : Option ℤ)
    (hg : 0 < (summaryDataOf stored target).goalCalories) :
    (getSummaryGET stored target).remaining
        = ((summaryDataOf stored target).goalCalories : ℚ)
            - (summaryDataOf stored target).totalCalories
    ∧ (getSummaryGET stored target).percentage
        = min 100
            ((summaryDataOf stored target).totalCalories
              / ((summaryDataOf stored target).goalCalories : ℚ) * 100)
    ∧ (getSummaryGET stored target).percentage ≤ 100
    ∧ (stored = none →
        (getSummaryGET stored target).totalCalories = 0
        ∧ (getSummaryGET stored target).totalProtein = 0
        ∧ (getSummaryGET stored target).totalCarbs = 0
        ∧ (getSummaryGET stored target).totalFats = 0
        ∧ ∀ t : ℤ, target = some t → 0 < t →
            (getSummaryGET stored target).goalCalories = t) := by
  have hne : (summaryDataOf stored target).goalCalories ≠ 0 := hg.ne'
  refine ⟨?_, ?_, ?_, ?_⟩
  · simp [getSummaryGET, jsOr, hne]
  · simp [getSummaryGET, hne, min_comm]
  · show min _ 100 ≤ 100
    exact min_le_right _ _
  · intro hnone
    subst hnone
    refine ⟨rfl, rfl, rfl, rfl, fun t ht h0t => ?_⟩
    subst ht
    simp [getSummaryGET, summaryDataOf, jsOptOr, jsOr, h0t.ne']

/-- Witness for C3: a stored summary over goal (2500 kcal against a 2000 kcal
goal): the remaining value the handler returns equals goal minus total, hence
is negative. -/
theorem getSummary_spec_witness :
    0 < (summaryDataOf (some ⟨"u", 100, 2500, 80, 300, 70, 2000⟩) (some 1800)).goalCalories
    ∧ (getSummaryGET (some ⟨"u", 100, 2500, 80, 300, 70, 2000⟩) (some 1800)).remaining
        = ((summaryDataOf (some ⟨"u", 100, 2500, 80, 300, 70, 2000⟩) (some 1800)).goalCalories : ℚ)
          - (summaryDataOf (some ⟨"u", 100, 2500, 80, 300, 70, 2000⟩) (some 1800)).totalCalories :=
  ⟨by decide,
    (getSummary_spec (some ⟨"u", 100, 2500, 80, 300, 70, 2000⟩) (some 1800) (by decide)).1⟩

/-! ### Theorem for claim C4 -/

/-- C4: a user with fewer than 5 logged meals overall receives the
"not enough data" response from the insights handler: HTTP 200 (not an
error), an empty insights list, and no call to the upstream provider — the
handler returns before the provider call, since the meals it fetches (a
7-day-window subset of the user's meals) are then also fewer than 5. -/
theorem insights_gating (now : ℕ) (db : List Meal) (uid : String)
    (upstream : List String)
    (h : (db.filter fun m => m.userId == uid).length < 5) :
    insightsGET now db uid upstream
      = ⟨200, some "Not enough data yet. Log at least 5 meals to get insights.", [], false⟩ := by
  have hlen : (db.filter fun m =>
      m.userId == uid && decide ((dayOf now - 7) * msPerDay ≤ m.timestamp)).length < 5 :=
    lt_of_le_of_lt (length_filter_and_le _ _ db) h
  simp only [insightsGET]
  rw [if_pos hlen]

/-- Witness for C4: a user with exactly 4 meals (another user's meal present
in the table) gets the gated response. -/
theorem insights_gating_witness :
    (([⟨"u1", "a", "breakfast", 9000000000, 300, 10, 30, 8⟩,
       ⟨"u1", "b", "lunch", 9010000000, 600, 30, 60, 20⟩,
       ⟨"u1", "c", "dinner", 9020000000, 700, 35, 70, 25⟩,
       ⟨"u1", "d", "snack", 9030000000, 150, 5, 20, 4⟩,
       ⟨"u2", "e", "snack", 9040000000, 150, 5, 20, 4⟩] : List Meal).filter
        fun m => m.userId == "u1").length < 5
    ∧ insightsGET 9100000000
        [⟨"u1", "a", "breakfast", 9000000000, 300, 10, 30, 8⟩,
         ⟨"u1", "b", "lunch", 9010000000, 600, 30, 60, 20⟩,
         ⟨"u1", "c", "dinner", 9020000000, 700, 35, 70, 25⟩,
         ⟨"u1", "d", "snack", 9030000000, 150, 5, 20, 4⟩,
         ⟨"u2", "e", "snack", 9040000000, 150, 5, 20, 4⟩] "u1" ["tip"]
      = ⟨200, some "Not enough data yet. Log at least 5 meals to get insights.", [], false⟩ :=
  ⟨by decide, insights_gating 9100000000 _ "u1" ["tip"] (by decide)⟩

/-! ### Theorems for claim C5 -/

/-- C5 (counterexample): the claim says the two failure kinds are
distinguishable to the caller, but the handler returns the identical
response — status 500, body `{ error: 'Failed to analyze food' }` — for an
upstream call error and for a malformed (non-JSON) reply, so no caller can
distinguish them. -/
theorem analyze_counterexample :
    analyzePOST true UpstreamOutcome.callError
        = analyzePOST true (UpstreamOutcome.content ReplyParse.notJson)
    ∧ analyzePOST true UpstreamOutcome.callError
        = ⟨500, AnalyzeBody.errorMsg "Failed to analyze food"⟩ := by
  constructor <;> rfl

/-- C5 (amended): the operation fails whenever the external call errors or
times out, the reply has no content, the reply is not valid JSON, or the
reply fails schema validation — but every such failure produces the same
generic HTTP 500 `{ error: 'Failed to analyze food' }` response, so the two
failure kinds are not distinguishable to the caller; each failure is caught
and answered with a response (recoverable, never fatal to the process). -/
theorem analyze_uniform_failure (o : UpstreamOutcome) (h : outcomeOk o = false) :
    analyzePOST true o = ⟨500, AnalyzeBody.errorMsg "Failed to analyze food"⟩ := by
  cases o with
  | callError => rfl
  | noContent => rfl
  | content r =>
    cases r with
    | notJson => rfl
    | schemaFail => rfl
    | ok n => simp [outcomeOk] at h

/-- Witness for C5: the upstream-error outcome is a failure outcome and gets
the generic 500 response. -/
theorem analyze_uniform_failure_witness :
    outcomeOk UpstreamOutcome.callError = false
    ∧ analyzePOST true UpstreamOutcome.callError
        = ⟨500, AnalyzeBody.errorMsg "Failed to analyze food"⟩ :=
  ⟨rfl, analyze_uniform_failure UpstreamOutcome.callError rfl⟩

/-! ### Theorem for claim C9 -/

/-- C9: the meals `GET` handler returns exactly the authenticated user's
meals matching the optional date filter (timestamp falling on that date) and
the optional meal-type filter, ordered descending by timestamp. -/
theorem getMeals_spec (db : List Meal) (uid : String) (dateParam : Option ℕ)
    (mealType : Option String) :
    (∀ m : Meal,
      m ∈ getMealsGET db uid dateParam mealType ↔
        m ∈ db ∧ m.userId = uid
          ∧ (∀ d, dateParam = some d → dayOf m.timestamp = d)
          ∧ (∀ t, mealType = some t → m.mealType = t))
    ∧ List.Sorted tsDesc (getMealsGET db uid dateParam mealType) := by
  constructor
  · intro m
    simp only [getMealsGET, List.mem_insertionSort, List.mem_filter]
    cases dateParam <;> cases mealType <;>
      simp [Bool.and_eq_true, decide_eq_true_eq, beq_iff_eq, and_assoc,
        ← mem_day_range_iff]
  · exact List.sorted_insertionSort tsDesc _
